import Mathlib

/-
Verification of the flux_led LEDENET protocol codec (flux_led/protocol.py).

Byte sequences are modelled as `List Nat` whose elements are intended to lie
in 0..255.  Python `bytearray([...])` construction raises `ValueError` when an
element is out of range; this fallibility is modelled by `mkBytearray`
returning `Option (List Nat)`.  Message constructors whose payloads are
literal constants (always in range) are modelled as total functions, exactly
as the source can never fail there.
-/

set_option linter.unusedVariables false

namespace FluxLed

/-- Mode selector `LevelWriteMode` from the source: ALL = 0x00,
COLORS = 0xF0, WHITES = 0x0F. -/
inductive LevelWriteMode
  | ALL
  | COLORS
  | WHITES
deriving DecidableEq

/-- Numeric code of a `LevelWriteMode`, the `.value` attribute of the enum. -/
def LevelWriteMode.value : LevelWriteMode → Nat
  | .ALL => 0x00
  | .COLORS => 0xF0
  | .WHITES => 0x0F

/-- Python `bytearray(xs)`: succeeds iff every element is in 0..255. -/
def mkBytearray (xs : List Nat) : Option (List Nat) :=
  if xs.all (fun x => x < 256) then some xs else none

/-- The namedtuple `LEDENETOriginalRawState` (11 fields). -/
structure LEDENETOriginalRawState where
  head : Nat
  model_num : Nat
  power_state : Nat
  preset_pattern : Nat
  mode : Nat
  speed : Nat
  red : Nat
  green : Nat
  blue : Nat
  warm_white : Nat
  check_sum : Nat
deriving DecidableEq

/-- The namedtuple `LEDENETRawState` (14 fields). -/
structure LEDENETRawState where
  head : Nat
  model_num : Nat
  power_state : Nat
  preset_pattern : Nat
  mode : Nat
  speed : Nat
  red : Nat
  green : Nat
  blue : Nat
  warm_white : Nat
  version_number : Nat
  cool_white : Nat
  color_mode : Nat
  check_sum : Nat
deriving DecidableEq

namespace ProtocolBase

/-- Shared `on_byte` property of `ProtocolBase`. -/
def on_byte : Nat := 0x23

/-- Shared `off_byte` property of `ProtocolBase`. -/
def off_byte : Nat := 0x24

end ProtocolBase

namespace ProtocolLEDENETOriginal

/-- Protocol name constant `PROTOCOL_LEDENET_ORIGINAL`. -/
def name : String := "LEDENET_ORIGINAL"

/-- `LEDENET_ORIGINAL_STATE_RESPONSE_LEN = 11`. -/
def state_response_length : Nat := 11

/-- Original protocol validation:
`len(raw_state) == 11 and raw_state[1] == 0x01`.  The index-1 access is
guarded by the length test, so `getD` with default 0 is value-equal. -/
def is_valid_state_response (raw_state : List Nat) : Bool :=
  raw_state.length == state_response_length && raw_state.getD 1 0 == 0x01

/-- Original protocol framing is the identity: no checksum. -/
def construct_message (raw_bytes : List Nat) : List Nat :=
  raw_bytes

/-- Query payload `[0xEF, 0x01, 0x77]`, sent unmodified. -/
def construct_state_query : List Nat :=
  construct_message [0xEF, 0x01, 0x77]

/-- State-change payload `[0xCC, on|off, 0x33]`, sent unmodified. -/
def construct_state_change (turn_on : Bool) : List Nat :=
  construct_message
    [0xCC, if turn_on then ProtocolBase.on_byte else ProtocolBase.off_byte, 0x33]

/-- Levels-change payload `bytearray([0x56, red, green, blue, 0xAA])`, sent
unmodified; persist, the white channels and the mask are ignored. -/
def construct_levels_change (persist : Bool)
    (red green blue warm_white cool_white : Nat)
    (color_mask : LevelWriteMode) : Option (List Nat) :=
  (mkBytearray [0x56, red, green, blue, 0xAA]).map construct_message

/-- `LEDENETOriginalRawState(*raw_state)`: succeeds iff exactly 11 values. -/
def named_raw_state (raw_state : List Nat) : Option LEDENETOriginalRawState :=
  match raw_state with
  | [a, b, c, d, e, f, g, h, i, j, k] =>
      some ⟨a, b, c, d, e, f, g, h, i, j, k⟩
  | _ => none

end ProtocolLEDENETOriginal

namespace ProtocolLEDENET8Byte

/-- Protocol name constant `PROTOCOL_LEDENET_8BYTE`. -/
def name : String := "LEDENET_8BYTE"

/-- `LEDENET_STATE_RESPONSE_LEN = 14`. -/
def state_response_length : Nat := 14

/-- 8-byte protocol validation: length 14, first byte 0x81, and
`sum(raw_state[0:-1]) & 0xFF == raw_state[-1]`.  The index accesses are
guarded by the length test, so `getD`/`getLastD` are value-equal. -/
def is_valid_state_response (raw_state : List Nat) : Bool :=
  raw_state.length == state_response_length &&
  raw_state.getD 0 0 == 0x81 &&
  raw_state.dropLast.sum % 256 == raw_state.getLastD 0

/-- Checksummed framing: append `sum(raw_bytes) & 0xFF`. -/
def construct_message (raw_bytes : List Nat) : List Nat :=
  raw_bytes ++ [raw_bytes.sum % 256]

/-- State-change payload `[0x71, on|off, 0x0F]` plus checksum. -/
def construct_state_change (turn_on : Bool) : List Nat :=
  construct_message
    [0x71, if turn_on then ProtocolBase.on_byte else ProtocolBase.off_byte, 0x0F]

/-- Levels-change payload
`bytearray([0x31|0x41, red, green, blue, warm_white, write_mode.value, 0x0F])`
plus checksum; cool_white is ignored by this variant. -/
def construct_levels_change (persist : Bool)
    (red green blue warm_white cool_white : Nat)
    (write_mode : LevelWriteMode) : Option (List Nat) :=
  (mkBytearray
    [if persist then 0x31 else 0x41, red, green, blue, warm_white,
      write_mode.value, 0x0F]).map construct_message

/-- Query payload `[0x81, 0x8A, 0x8B]` plus checksum. -/
def construct_state_query : List Nat :=
  construct_message [0x81, 0x8A, 0x8B]

/-- `LEDENETRawState(*raw_state)`: succeeds iff exactly 14 values. -/
def named_raw_state (raw_state : List Nat) : Option LEDENETRawState :=
  match raw_state with
  | [a, b, c, d, e, f, g, h, i, j, k, l, m, n] =>
      some ⟨a, b, c, d, e, f, g, h, i, j, k, l, m, n⟩
  | _ => none

end ProtocolLEDENET8Byte

namespace ProtocolLEDENET9Byte

/-- Protocol name constant `PROTOCOL_LEDENET_9BYTE`. -/
def name : String := "LEDENET"

/-- Inherited unchanged from the 8-byte variant. -/
def state_response_length : Nat := ProtocolLEDENET8Byte.state_response_length

/-- Inherited unchanged from the 8-byte variant. -/
def is_valid_state_response : List Nat → Bool :=
  ProtocolLEDENET8Byte.is_valid_state_response

/-- Inherited unchanged from the 8-byte variant. -/
def construct_message : List Nat → List Nat :=
  ProtocolLEDENET8Byte.construct_message

/-- Inherited unchanged from the 8-byte variant. -/
def construct_state_change : Bool → List Nat :=
  ProtocolLEDENET8Byte.construct_state_change

/-- Inherited unchanged from the 8-byte variant. -/
def construct_state_query : List Nat :=
  ProtocolLEDENET8Byte.construct_state_query

/-- Inherited unchanged from the 8-byte variant. -/
def named_raw_state : List Nat → Option LEDENETRawState :=
  ProtocolLEDENET8Byte.named_raw_state

/-- Overridden levels-change: payload
`bytearray([0x31|0x41, red, green, blue, warm_white, cool_white,
write_mode.value, 0x0F])` plus checksum. -/
def construct_levels_change (persist : Bool)
    (red green blue warm_white cool_white : Nat)
    (write_mode : LevelWriteMode) : Option (List Nat) :=
  (mkBytearray
    [if persist then 0x31 else 0x41, red, green, blue, warm_white, cool_white,
      write_mode.value, 0x0F]).map construct_message

end ProtocolLEDENET9Byte

/-- Specification predicate: the last byte of a message equals the sum of all
preceding bytes modulo 256. -/
def hasValidChecksum (m : List Nat) : Prop :=
  m.dropLast.sum % 256 = m.getLastD 0

instance (m : List Nat) : Decidable (hasValidChecksum m) := by
  unfold hasValidChecksum
  infer_instance

theorem LevelWriteMode.value_lt (mode : LevelWriteMode) : mode.value < 256 := by
  cases mode <;> decide

theorem construct_message_checksum (rb : List Nat) :
    hasValidChecksum (ProtocolLEDENET8Byte.construct_message rb) := by
  simp [hasValidChecksum, ProtocolLEDENET8Byte.construct_message]

theorem mkBytearray_some (xs : List Nat) (h : ∀ x ∈ xs, x < 256) :
    mkBytearray xs = some xs := by
  simp [mkBytearray, List.all_eq_true]
  intro x hx
  exact h x hx

/-- Claim C1: for the 8-Byte and 9-Byte variants, every constructed message
(state query, state change, levels change with in-range channels and a
LevelWriteMode selector) ends in a trailing checksum byte equal to the sum of
all preceding bytes modulo 256. -/
theorem claim1_constructed_messages_checksummed
    (turn_on persist : Bool) (red green blue warm_white cool_white : Nat)
    (mode : LevelWriteMode)
    (hr : red < 256) (hg : green < 256) (hb : blue < 256)
    (hw : warm_white < 256) (hc : cool_white < 256) :
    hasValidChecksum ProtocolLEDENET8Byte.construct_state_query ∧
    hasValidChecksum (ProtocolLEDENET8Byte.construct_state_change turn_on) ∧
    (∃ m, ProtocolLEDENET8Byte.construct_levels_change persist red green blue
        warm_white cool_white mode = some m ∧ hasValidChecksum m) ∧
    hasValidChecksum ProtocolLEDENET9Byte.construct_state_query ∧
    hasValidChecksum (ProtocolLEDENET9Byte.construct_state_change turn_on) ∧
    (∃ m, ProtocolLEDENET9Byte.construct_levels_change persist red green blue
        warm_white cool_white mode = some m ∧ hasValidChecksum m) := by
  have hmode := LevelWriteMode.value_lt mode
  have hall8 : ∀ x ∈ ([if persist then 0x31 else 0x41, red, green, blue,
      warm_white, mode.value, 0x0F] : List Nat), x < 256 := by
    simp only [List.mem_cons, List.not_mem_nil, or_false, forall_eq_or_imp,
      forall_eq]
    refine ⟨?_, hr, hg, hb, hw, hmode, by decide⟩
    split <;> decide
  have hall9 : ∀ x ∈ ([if persist then 0x31 else 0x41, red, green, blue,
      warm_white, cool_white, mode.value, 0x0F] : List Nat), x < 256 := by
    simp only [List.mem_cons, List.not_mem_nil, or_false, forall_eq_or_imp,
      forall_eq]
    refine ⟨?_, hr, hg, hb, hw, hc, hmode, by decide⟩
    split <;> decide
  refine ⟨construct_message_checksum _, construct_message_checksum _, ?_,
    construct_message_checksum _, construct_message_checksum _, ?_⟩
  · refine ⟨ProtocolLEDENET8Byte.construct_message
        [if persist then 0x31 else 0x41, red, green, blue, warm_white,
          mode.value, 0x0F],
      ?_, construct_message_checksum _⟩
    rw [ProtocolLEDENET8Byte.construct_levels_change,
      mkBytearray_some _ hall8, Option.map_some']
  · refine ⟨ProtocolLEDENET9Byte.construct_message
        [if persist then 0x31 else 0x41, red, green, blue, warm_white,
          cool_white, mode.value, 0x0F],
      ?_, construct_message_checksum _⟩
    rw [ProtocolLEDENET9Byte.construct_levels_change,
      mkBytearray_some _ hall9, Option.map_some']

theorem claim1_witness :
    hasValidChecksum ProtocolLEDENET8Byte.construct_state_query ∧
    hasValidChecksum (ProtocolLEDENET8Byte.construct_state_change true) ∧
    (∃ m, ProtocolLEDENET8Byte.construct_levels_change true 10 20 30
        40 50 LevelWriteMode.ALL = some m ∧ hasValidChecksum m) ∧
    hasValidChecksum ProtocolLEDENET9Byte.construct_state_query ∧
    hasValidChecksum (ProtocolLEDENET9Byte.construct_state_change true) ∧
    (∃ m, ProtocolLEDENET9Byte.construct_levels_change true 10 20 30
        40 50 LevelWriteMode.ALL = some m ∧ hasValidChecksum m) :=
  claim1_constructed_messages_checksummed true true 10 20 30 40 50
    LevelWriteMode.ALL (by decide) (by decide) (by decide) (by decide) (by decide)

/-- Claim C2: every 14-byte sequence whose first byte is 0x81 and whose last
byte is the sum of the first 13 bytes modulo 256 is accepted by the 8-Byte
validator, and named_raw_state maps its 14 bytes onto the 14 record fields in
order. -/
theorem claim2_valid_response_roundtrip
    (b0 b1 b2 b3 b4 b5 b6 b7 b8 b9 b10 b11 b12 b13 : Nat)
    (hbytes : ∀ x ∈ ([b0, b1, b2, b3, b4, b5, b6, b7, b8, b9, b10, b11, b12,
      b13] : List Nat), x < 256)
    (h0 : b0 = 0x81)
    (hcs : b13 = ([b0, b1, b2, b3, b4, b5, b6, b7, b8, b9, b10, b11,
      b12] : List Nat).sum % 256) :
    ProtocolLEDENET8Byte.is_valid_state_response
      [b0, b1, b2, b3, b4, b5, b6, b7, b8, b9, b10, b11, b12, b13] = true ∧
    ProtocolLEDENET8Byte.named_raw_state
      [b0, b1, b2, b3, b4, b5, b6, b7, b8, b9, b10, b11, b12, b13] =
      some ⟨b0, b1, b2, b3, b4, b5, b6, b7, b8, b9, b10, b11, b12, b13⟩ := by
  subst h0 hcs
  refine ⟨?_, rfl⟩
  simp [ProtocolLEDENET8Byte.is_valid_state_response,
    ProtocolLEDENET8Byte.state_response_length, List.dropLast, List.getLastD]

theorem claim2_witness :
    ProtocolLEDENET8Byte.is_valid_state_response
      [0x81, 0x25, 0x23, 0x61, 0x21, 0x06, 0x38, 0x05, 0x06, 0xF9, 0x01,
        0x00, 0x0F, 0x9D] = true ∧
    ProtocolLEDENET8Byte.named_raw_state
      [0x81, 0x25, 0x23, 0x61, 0x21, 0x06, 0x38, 0x05, 0x06, 0xF9, 0x01,
        0x00, 0x0F, 0x9D] =
      some ⟨0x81, 0x25, 0x23, 0x61, 0x21, 0x06, 0x38, 0x05, 0x06, 0xF9, 0x01,
        0x00, 0x0F, 0x9D⟩ :=
  claim2_valid_response_roundtrip 0x81 0x25 0x23 0x61 0x21 0x06 0x38 0x05
    0x06 0xF9 0x01 0x00 0x0F 0x9D (by decide) (by decide) (by decide)

/-- Claim C3: the Original validator accepts a sequence iff its length is 11
and its byte at index 1 is 0x01; hence an 11-byte response whose index-1 byte
differs from 0x01 is rejected. -/
theorem claim3_original_validation_iff (raw_state : List Nat) :
    ProtocolLEDENETOriginal.is_valid_state_response raw_state = true ↔
    (raw_state.length = 11 ∧ raw_state.getD 1 0 = 0x01) := by
  simp [ProtocolLEDENETOriginal.is_valid_state_response,
    ProtocolLEDENETOriginal.state_response_length]

/-- Claim C4: the 9-Byte variant inherits state query, state change, message
framing and validation unchanged from the 8-Byte variant, and its overridden
levels change returns the persist byte, the five channel bytes, the mode code
and 0x0F plus the trailing checksum, matching the concrete example. -/
theorem claim4_nine_byte_refinement :
    (∀ rb, ProtocolLEDENET9Byte.construct_message rb =
      ProtocolLEDENET8Byte.construct_message rb) ∧
    ProtocolLEDENET9Byte.construct_state_query =
      ProtocolLEDENET8Byte.construct_state_query ∧
    (∀ t, ProtocolLEDENET9Byte.construct_state_change t =
      ProtocolLEDENET8Byte.construct_state_change t) ∧
    (∀ raw, ProtocolLEDENET9Byte.is_valid_state_response raw =
      ProtocolLEDENET8Byte.is_valid_state_response raw) ∧
    (∀ (persist : Bool) (red green blue warm_white cool_white : Nat)
      (mode : LevelWriteMode),
      red < 256 → green < 256 → blue < 256 → warm_white < 256 →
      cool_white < 256 →
      ProtocolLEDENET9Byte.construct_levels_change persist red green blue
        warm_white cool_white mode =
      some ([if persist then 0x31 else 0x41, red, green, blue, warm_white,
          cool_white, mode.value, 0x0F] ++
        [([if persist then 0x31 else 0x41, red, green, blue, warm_white,
          cool_white, mode.value, 0x0F] : List Nat).sum % 256])) ∧
    ProtocolLEDENET9Byte.construct_levels_change true 0xBC 0xC1 0xFF 0x00
      0x00 LevelWriteMode.COLORS =
      some [0x31, 0xBC, 0xC1, 0xFF, 0x00, 0x00, 0xF0, 0x0F, 0xAC] := by
  refine ⟨fun rb => rfl, rfl, fun t => rfl, fun raw => rfl, ?_, by decide⟩
  intro persist red green blue warm_white cool_white mode hr hg hb hw hc
  have hmode := LevelWriteMode.value_lt mode
  have hall : ∀ x ∈ ([if persist then 0x31 else 0x41, red, green, blue,
      warm_white, cool_white, mode.value, 0x0F] : List Nat), x < 256 := by
    simp only [List.mem_cons, List.not_mem_nil, or_false, forall_eq_or_imp,
      forall_eq]
    refine ⟨?_, hr, hg, hb, hw, hc, hmode, by decide⟩
    split <;> decide
  rw [ProtocolLEDENET9Byte.construct_levels_change,
    mkBytearray_some _ hall, Option.map_some']
  rfl

theorem claim4_witness :
    ProtocolLEDENET9Byte.construct_levels_change true 10 20 30 40 50
      LevelWriteMode.WHITES =
    some ([0x31, 10, 20, 30, 40, 50, 0x0F, 0x0F] ++
      [([0x31, 10, 20, 30, 40, 50, 0x0F, 0x0F] : List Nat).sum % 256]) :=
  claim4_nine_byte_refinement.2.2.2.2.1 true 10 20 30 40 50
    LevelWriteMode.WHITES (by decide) (by decide) (by decide) (by decide)
    (by decide)

/-- Claim C5: state change encodes on as 0x23 and off as 0x24; the Original
variant frames it as [0xCC, on|off, 0x33] with no checksum, the 8-Byte and
9-Byte variants as [0x71, on|off, 0x0F] plus checksum, and turning on via the
8-Byte variant yields [0x71, 0x23, 0x0F, 0xA3]. -/
theorem claim5_state_change_bytes (turn_on : Bool) :
    ProtocolLEDENETOriginal.construct_state_change turn_on =
      [0xCC, if turn_on then 0x23 else 0x24, 0x33] ∧
    ProtocolLEDENET8Byte.construct_state_change turn_on =
      [0x71, if turn_on then 0x23 else 0x24, 0x0F,
        (0x71 + ((if turn_on then 0x23 else 0x24) + 0x0F)) % 256] ∧
    ProtocolLEDENET9Byte.construct_state_change turn_on =
      [0x71, if turn_on then 0x23 else 0x24, 0x0F,
        (0x71 + ((if turn_on then 0x23 else 0x24) + 0x0F)) % 256] ∧
    ProtocolLEDENET8Byte.construct_state_change true =
      [0x71, 0x23, 0x0F, 0xA3] := by
  cases turn_on <;> exact ⟨by decide, by decide, by decide, by decide⟩

/-- Claim C6: state_response_length is 11 for Original and 14 for 8-Byte and
9-Byte, and each validator returns false on any sequence of a different
length. -/
theorem claim6_response_lengths (raw : List Nat) :
    ProtocolLEDENETOriginal.state_response_length = 11 ∧
    ProtocolLEDENET8Byte.state_response_length = 14 ∧
    ProtocolLEDENET9Byte.state_response_length = 14 ∧
    (raw.length ≠ 11 →
      ProtocolLEDENETOriginal.is_valid_state_response raw = false) ∧
    (raw.length ≠ 14 →
      ProtocolLEDENET8Byte.is_valid_state_response raw = false) ∧
    (raw.length ≠ 14 →
      ProtocolLEDENET9Byte.is_valid_state_response raw = false) := by
  refine ⟨rfl, rfl, rfl, ?_, ?_, ?_⟩ <;> intro h <;>
    simp [ProtocolLEDENETOriginal.is_valid_state_response,
      ProtocolLEDENET8Byte.is_valid_state_response,
      ProtocolLEDENET9Byte.is_valid_state_response,
      ProtocolLEDENETOriginal.state_response_length,
      ProtocolLEDENET8Byte.state_response_length, h]

theorem claim6_witness :
    ProtocolLEDENETOriginal.is_valid_state_response [] = false ∧
    ProtocolLEDENET8Byte.is_valid_state_response [] = false ∧
    ProtocolLEDENET9Byte.is_valid_state_response [] = false :=
  ⟨(claim6_response_lengths []).2.2.2.1 (by decide),
    (claim6_response_lengths []).2.2.2.2.1 (by decide),
    (claim6_response_lengths []).2.2.2.2.2 (by decide)⟩

/-- Claim C7: every sequence a validator accepts has the length and the
marker byte the variant expects (index-1 byte 0x01 for Original, index-0
byte 0x81 for the checksummed variants), and for the checksummed variants
the sum of all bytes before the last one modulo 256 equals the last byte. -/
theorem claim7_accepted_implies_header (raw : List Nat) :
    (ProtocolLEDENETOriginal.is_valid_state_response raw = true →
      raw.length = 11 ∧ raw.getD 1 0 = 0x01) ∧
    (ProtocolLEDENET8Byte.is_valid_state_response raw = true →
      raw.length = 14 ∧ raw.getD 0 0 = 0x81 ∧
      raw.dropLast.sum % 256 = raw.getLastD 0) ∧
    (ProtocolLEDENET9Byte.is_valid_state_response raw = true →
      raw.length = 14 ∧ raw.getD 0 0 = 0x81 ∧
      raw.dropLast.sum % 256 = raw.getLastD 0) := by
  refine ⟨?_, ?_, ?_⟩ <;> intro h <;>
    simpa [ProtocolLEDENETOriginal.is_valid_state_response,
      ProtocolLEDENET8Byte.is_valid_state_response,
      ProtocolLEDENET9Byte.is_valid_state_response,
      ProtocolLEDENETOriginal.state_response_length,
      ProtocolLEDENET8Byte.state_response_length, and_assoc] using h

theorem claim7_witness :
    (ProtocolLEDENETOriginal.is_valid_state_response
      [0x66, 0x01, 0x24, 0x39, 0x21, 0x0A, 0xFF, 0x00, 0x00, 0x01, 0x99] =
        true ∧
      ([0x66, 0x01, 0x24, 0x39, 0x21, 0x0A, 0xFF, 0x00, 0x00, 0x01,
        0x99] : List Nat).getD 1 0 = 0x01) ∧
    (ProtocolLEDENET8Byte.is_valid_state_response
      [0x81, 0x25, 0x23, 0x61, 0x21, 0x06, 0x38, 0x05, 0x06, 0xF9, 0x01,
        0x00, 0x0F, 0x9D] = true ∧
      ([0x81, 0x25, 0x23, 0x61, 0x21, 0x06, 0x38, 0x05, 0x06, 0xF9, 0x01,
        0x00, 0x0F, 0x9D] : List Nat).getD 0 0 = 0x81) ∧
    (ProtocolLEDENET9Byte.is_valid_state_response
      [0x81, 0x25, 0x23, 0x61, 0x21, 0x06, 0x38, 0x05, 0x06, 0xF9, 0x01,
        0x00, 0x0F, 0x9D] = true ∧
      ([0x81, 0x25, 0x23, 0x61, 0x21, 0x06, 0x38, 0x05, 0x06, 0xF9, 0x01,
        0x00, 0x0F, 0x9D] : List Nat).getD 0 0 = 0x81) :=
  ⟨⟨by decide, ((claim7_accepted_implies_header
      [0x66, 0x01, 0x24, 0x39, 0x21, 0x0A, 0xFF, 0x00, 0x00, 0x01,
        0x99]).1 (by decide)).2⟩,
    ⟨by decide, ((claim7_accepted_implies_header
      [0x81, 0x25, 0x23, 0x61, 0x21, 0x06, 0x38, 0x05, 0x06, 0xF9, 0x01,
        0x00, 0x0F, 0x9D]).2.1 (by decide)).2.1⟩,
    ⟨by decide, ((claim7_accepted_implies_header
      [0x81, 0x25, 0x23, 0x61, 0x21, 0x06, 0x38, 0x05, 0x06, 0xF9, 0x01,
        0x00, 0x0F, 0x9D]).2.2 (by decide)).2.1⟩⟩

/-- Claim C8: for in-range red, green and blue, the Original levels change is
exactly [0x56, red, green, blue, 0xAA] with no checksum, independent of
persist, of both white channels and of the mode selector. -/
theorem claim8_original_levels_independent
    (persist persist' : Bool)
    (red green blue warm_white warm_white' cool_white cool_white' : Nat)
    (color_mask color_mask' : LevelWriteMode)
    (hr : red < 256) (hg : green < 256) (hb : blue < 256) :
    ProtocolLEDENETOriginal.construct_levels_change persist red green blue
      warm_white cool_white color_mask =
      some [0x56, red, green, blue, 0xAA] ∧
    ProtocolLEDENETOriginal.construct_levels_change persist red green blue
      warm_white cool_white color_mask =
    ProtocolLEDENETOriginal.construct_levels_change persist' red green blue
      warm_white' cool_white' color_mask' := by
  have hall : ∀ x ∈ ([0x56, red, green, blue, 0xAA] : List Nat), x < 256 := by
    simp only [List.mem_cons, List.not_mem_nil, or_false, forall_eq_or_imp,
      forall_eq]
    exact ⟨by decide, hr, hg, hb, by decide⟩
  refine ⟨?_, rfl⟩
  rw [ProtocolLEDENETOriginal.construct_levels_change,
    mkBytearray_some _ hall, Option.map_some']
  rfl

theorem claim8_witness :
    ProtocolLEDENETOriginal.construct_levels_change true 0x90 0xFA 0x77
      0x12 0x34 LevelWriteMode.WHITES =
      some [0x56, 0x90, 0xFA, 0x77, 0xAA] ∧
    ProtocolLEDENETOriginal.construct_levels_change true 0x90 0xFA 0x77
      0x12 0x34 LevelWriteMode.WHITES =
    ProtocolLEDENETOriginal.construct_levels_change false 0x90 0xFA 0x77
      0x99 0x88 LevelWriteMode.ALL :=
  claim8_original_levels_independent true false 0x90 0xFA 0x77 0x12 0x99
    0x34 0x88 LevelWriteMode.WHITES LevelWriteMode.ALL
    (by decide) (by decide) (by decide)

/-- Claim C9: every constructor of every variant is deterministic and
stateless; two calls with equal argument values return identical byte
sequences. -/
theorem claim9_constructors_deterministic
    (turn_on turn_on' persist persist' : Bool)
    (red red' green green' blue blue' warm_white warm_white'
      cool_white cool_white' : Nat)
    (mode mode' : LevelWriteMode)
    (h1 : turn_on = turn_on') (h2 : persist = persist') (h3 : red = red')
    (h4 : green = green') (h5 : blue = blue') (h6 : warm_white = warm_white')
    (h7 : cool_white = cool_white') (h8 : mode = mode') :
    ProtocolLEDENETOriginal.construct_state_query =
      ProtocolLEDENETOriginal.construct_state_query ∧
    ProtocolLEDENETOriginal.construct_state_change turn_on =
      ProtocolLEDENETOriginal.construct_state_change turn_on' ∧
    ProtocolLEDENETOriginal.construct_levels_change persist red green blue
        warm_white cool_white mode =
      ProtocolLEDENETOriginal.construct_levels_change persist' red' green'
        blue' warm_white' cool_white' mode' ∧
    ProtocolLEDENET8Byte.construct_state_query =
      ProtocolLEDENET8Byte.construct_state_query ∧
    ProtocolLEDENET8Byte.construct_state_change turn_on =
      ProtocolLEDENET8Byte.construct_state_change turn_on' ∧
    ProtocolLEDENET8Byte.construct_levels_change persist red green blue
        warm_white cool_white mode =
      ProtocolLEDENET8Byte.construct_levels_change persist' red' green' blue'
        warm_white' cool_white' mode' ∧
    ProtocolLEDENET9Byte.construct_state_query =
      ProtocolLEDENET9Byte.construct_state_query ∧
    ProtocolLEDENET9Byte.construct_state_change turn_on =
      ProtocolLEDENET9Byte.construct_state_change turn_on' ∧
    ProtocolLEDENET9Byte.construct_levels_change persist red green blue
        warm_white cool_white mode =
      ProtocolLEDENET9Byte.construct_levels_change persist' red' green' blue'
        warm_white' cool_white' mode' := by
  subst h1 h2 h3 h4 h5 h6 h7 h8
  exact ⟨rfl, rfl, rfl, rfl, rfl, rfl, rfl, rfl, rfl⟩

theorem claim9_witness :
    ProtocolLEDENETOriginal.construct_state_query =
      ProtocolLEDENETOriginal.construct_state_query ∧
    ProtocolLEDENETOriginal.construct_state_change true =
      ProtocolLEDENETOriginal.construct_state_change true ∧
    ProtocolLEDENETOriginal.construct_levels_change false 1 2 3 4 5
        LevelWriteMode.COLORS =
      ProtocolLEDENETOriginal.construct_levels_change false 1 2 3 4 5
        LevelWriteMode.COLORS ∧
    ProtocolLEDENET8Byte.construct_state_query =
      ProtocolLEDENET8Byte.construct_state_query ∧
    ProtocolLEDENET8Byte.construct_state_change true =
      ProtocolLEDENET8Byte.construct_state_change true ∧
    ProtocolLEDENET8Byte.construct_levels_change false 1 2 3 4 5
        LevelWriteMode.COLORS =
      ProtocolLEDENET8Byte.construct_levels_change false 1 2 3 4 5
        LevelWriteMode.COLORS ∧
    ProtocolLEDENET9Byte.construct_state_query =
      ProtocolLEDENET9Byte.construct_state_query ∧
    ProtocolLEDENET9Byte.construct_state_change true =
      ProtocolLEDENET9Byte.construct_state_change true ∧
    ProtocolLEDENET9Byte.construct_levels_change false 1 2 3 4 5
        LevelWriteMode.COLORS =
      ProtocolLEDENET9Byte.construct_levels_change false 1 2 3 4 5
        LevelWriteMode.COLORS :=
  claim9_constructors_deterministic true true false false 1 1 2 2 3 3 4 4 5 5
    LevelWriteMode.COLORS LevelWriteMode.COLORS rfl rfl rfl rfl rfl rfl rfl
    rfl

theorem construct_message_mem_lt (rb : List Nat) (h : ∀ x ∈ rb, x < 256) :
    ∀ x ∈ ProtocolLEDENET8Byte.construct_message rb, x < 256 := by
  intro x hx
  simp only [ProtocolLEDENET8Byte.construct_message, List.mem_append,
    List.mem_singleton] at hx
  rcases hx with hx | hx
  · exact h x hx
  · subst hx
    exact Nat.mod_lt _ (by decide)

/-- Claim C10: with all five channels in 0..255 and a LevelWriteMode
selector, every variant's levels change returns a sequence of bytes in
0..255, of length 5 for Original, 8 for 8-Byte and 9 for 9-Byte; an
out-of-range channel value (here red = 256) reaches the error branch of byte
construction in each variant. -/
theorem claim10_levels_change_total
    (persist : Bool) (red green blue warm_white cool_white : Nat)
    (mode : LevelWriteMode)
    (hr : red < 256) (hg : green < 256) (hb : blue < 256)
    (hw : warm_white < 256) (hc : cool_white < 256) :
    (∃ m, ProtocolLEDENETOriginal.construct_levels_change persist red green
        blue warm_white cool_white mode = some m ∧
      m.length = 5 ∧ ∀ x ∈ m, x < 256) ∧
    (∃ m, ProtocolLEDENET8Byte.construct_levels_change persist red green
        blue warm_white cool_white mode = some m ∧
      m.length = 8 ∧ ∀ x ∈ m, x < 256) ∧
    (∃ m, ProtocolLEDENET9Byte.construct_levels_change persist red green
        blue warm_white cool_white mode = some m ∧
      m.length = 9 ∧ ∀ x ∈ m, x < 256) ∧
    ProtocolLEDENETOriginal.construct_levels_change persist 256 green blue
      warm_white cool_white mode = none ∧
    ProtocolLEDENET8Byte.construct_levels_change persist 256 green blue
      warm_white cool_white mode = none ∧
    ProtocolLEDENET9Byte.construct_levels_change persist 256 green blue
      warm_white cool_white mode = none := by
  have hmode := LevelWriteMode.value_lt mode
  have hallO : ∀ x ∈ ([0x56, red, green, blue, 0xAA] : List Nat), x < 256 := by
    simp only [List.mem_cons, List.not_mem_nil, or_false, forall_eq_or_imp,
      forall_eq]
    exact ⟨by decide, hr, hg, hb, by decide⟩
  have hall8 : ∀ x ∈ ([if persist then 0x31 else 0x41, red, green, blue,
      warm_white, mode.value, 0x0F] : List Nat), x < 256 := by
    simp only [List.mem_cons, List.not_mem_nil, or_false, forall_eq_or_imp,
      forall_eq]
    refine ⟨?_, hr, hg, hb, hw, hmode, by decide⟩
    split <;> decide
  have hall9 : ∀ x ∈ ([if persist then 0x31 else 0x41, red, green, blue,
      warm_white, cool_white, mode.value, 0x0F] : List Nat), x < 256 := by
    simp only [List.mem_cons, List.not_mem_nil, or_false, forall_eq_or_imp,
      forall_eq]
    refine ⟨?_, hr, hg, hb, hw, hc, hmode, by decide⟩
    split <;> decide
  refine ⟨⟨[0x56, red, green, blue, 0xAA], ?_, rfl, hallO⟩,
    ⟨ProtocolLEDENET8Byte.construct_message
        [if persist then 0x31 else 0x41, red, green, blue, warm_white,
          mode.value, 0x0F],
      ?_, by simp [ProtocolLEDENET8Byte.construct_message],
      construct_message_mem_lt _ hall8⟩,
    ⟨ProtocolLEDENET8Byte.construct_message
        [if persist then 0x31 else 0x41, red, green, blue, warm_white,
          cool_white, mode.value, 0x0F],
      ?_, by simp [ProtocolLEDENET8Byte.construct_message],
      construct_message_mem_lt _ hall9⟩,
    ?_, ?_, ?_⟩
  · rw [ProtocolLEDENETOriginal.construct_levels_change,
      mkBytearray_some _ hallO, Option.map_some']
    rfl
  · rw [ProtocolLEDENET8Byte.construct_levels_change,
      mkBytearray_some _ hall8, Option.map_some']
  · rw [ProtocolLEDENET9Byte.construct_levels_change,
      mkBytearray_some _ hall9, Option.map_some']
    rfl
  · simp [ProtocolLEDENETOriginal.construct_levels_change, mkBytearray]
  · simp [ProtocolLEDENET8Byte.construct_levels_change, mkBytearray]
  · simp [ProtocolLEDENET9Byte.construct_levels_change, mkBytearray]

theorem claim10_witness :
    ProtocolLEDENETOriginal.construct_levels_change true 256 2 3 4 5
      LevelWriteMode.ALL = none ∧
    ProtocolLEDENET8Byte.construct_levels_change true 256 2 3 4 5
      LevelWriteMode.ALL = none ∧
    ProtocolLEDENET9Byte.construct_levels_change true 256 2 3 4 5
      LevelWriteMode.ALL = none :=
  ⟨(claim10_levels_change_total true 1 2 3 4 5 LevelWriteMode.ALL (by decide)
      (by decide) (by decide) (by decide) (by decide)).2.2.2.1,
    (claim10_levels_change_total true 1 2 3 4 5 LevelWriteMode.ALL (by decide)
      (by decide) (by decide) (by decide) (by decide)).2.2.2.2.1,
    (claim10_levels_change_total true 1 2 3 4 5 LevelWriteMode.ALL (by decide)
      (by decide) (by decide) (by decide) (by decide)).2.2.2.2.2⟩

end FluxLed
